import Mathlib

/-!
Shallow embedding of the `cooper` SC2-replay analyser core
(`src/lib.rs`, `src/colors.rs`, `src/map.rs`, `src/tracker_events/mod.rs`)
together with theorems checking the specification's claims about it.

Machine integers are modelled as `Nat` (for `u8`/`u32` values, with an
explicit `% 2^32` where the `u32` accumulation in `extract_game_snapshots`
can wrap) and as `Int` (for `i32`/`i64` values).  `f32` quantities that the
code only ever assigns from literals or copies verbatim (unit sizes, vertex
coordinates, the animation timestamp) are modelled as exact rationals, since
no rounding behaviour is exercised by the code paths under study.
-/

namespace Cooper

/-- The packed colour type from `src/colors.rs`: a transparent wrapper around
a `u32` whose bytes are R, G, B, A from most to least significant.  The `u32`
payload is modelled as a `Nat` (intended range `< 2^32`). -/
structure ColorRGBA where
  val : Nat
deriving DecidableEq, Repr

/-- `ColorRGBA::to_array` from `src/colors.rs`: expand the packed value into
its four component bytes, most significant byte first.  Rust's `as u8` cast
is the low 8 bits, i.e. `% 256`. -/
def ColorRGBA.to_array (c : ColorRGBA) : List Nat :=
  [(c.val >>> 24) % 256, (c.val >>> 16) % 256, (c.val >>> 8) % 256, c.val % 256]

/-- Palette constant from `src/colors.rs`. -/
def FREYA_ORANGE : ColorRGBA := ⟨0xeb790700⟩

/-- Palette constant from `src/colors.rs`. -/
def FREYA_GOLD : ColorRGBA := ⟨0xea9e3600⟩

/-- Palette constant from `src/colors.rs`. -/
def FREYA_RED : ColorRGBA := ⟨0xf8105300⟩

/-- Palette constant from `src/colors.rs`. -/
def FREYA_BLUE : ColorRGBA := ⟨0x30b5f700⟩

/-- Palette constant from `src/colors.rs`. -/
def FREYA_GREEN : ColorRGBA := ⟨0x0aeb9f00⟩

/-- Palette constant from `src/colors.rs`. -/
def FREYA_LIGHT_BLUE : ColorRGBA := ⟨0x72c5dd00⟩

/-- Palette constant from `src/colors.rs`. -/
def FREYA_GRAY : ColorRGBA := ⟨0xb2c5c500⟩

/-- Palette constant from `src/colors.rs`. -/
def FREYA_PINK : ColorRGBA := ⟨0xeaa48300⟩

/-- Palette constant from `src/colors.rs`. -/
def FREYA_LIGHT_GRAY : ColorRGBA := ⟨0xf4f5f800⟩

/-- Palette constant from `src/colors.rs`. -/
def FREYA_DARK_BLUE : ColorRGBA := ⟨0x4da7c200⟩

/-- Palette constant from `src/colors.rs`. -/
def FREYA_DARK_GREEN : ColorRGBA := ⟨0x37bda900⟩

/-- Palette constant from `src/colors.rs`. -/
def FREYA_DARK_RED : ColorRGBA := ⟨0xae204400⟩

/-- Palette constant from `src/colors.rs`. -/
def FREYA_VIOLET : ColorRGBA := ⟨0xa401ed00⟩

/-- Palette constant from `src/colors.rs`. -/
def FREYA_WHITE : ColorRGBA := ⟨0xfaf8fb00⟩

/-- Palette constant from `src/colors.rs`. -/
def FREYA_YELLOW : ColorRGBA := ⟨0xf7d45400⟩

/-- Palette constant from `src/colors.rs`. -/
def FREYA_LIGHT_YELLOW : ColorRGBA := ⟨0xead8ad00⟩

/-- Palette constant from `src/colors.rs`. -/
def FREYA_LIGHT_GREEN : ColorRGBA := ⟨0x6ec29c00⟩

/-- The seventeen palette constants of `src/colors.rs`, in source order. -/
def freyaPalette : List ColorRGBA :=
  [FREYA_ORANGE, FREYA_GOLD, FREYA_RED, FREYA_BLUE, FREYA_GREEN,
   FREYA_LIGHT_BLUE, FREYA_GRAY, FREYA_PINK, FREYA_LIGHT_GRAY,
   FREYA_DARK_BLUE, FREYA_DARK_GREEN, FREYA_DARK_RED, FREYA_VIOLET,
   FREYA_WHITE, FREYA_YELLOW, FREYA_LIGHT_YELLOW, FREYA_LIGHT_GREEN]

/-- `user_color` from `src/colors.rs`: the participant-id fallback palette.
The `user_id` is an `i64`, modelled as `Int`. -/
def user_color (user_id : Int) : ColorRGBA :=
  match user_id with
  | 0 => FREYA_LIGHT_GREEN
  | 1 => FREYA_LIGHT_BLUE
  | 2 => FREYA_LIGHT_GRAY
  | 3 => FREYA_ORANGE
  | _ => FREYA_WHITE

/-- `get_unit_sized_color` from `src/colors.rs`.  The Rust function sets
`unit_size = 0.045` as a default and overrides it in individual match arms;
each arm below carries the size in effect when that arm returns.  The `f32`
sizes are exact decimal literals, modelled as rationals.  The diagnostic
`log!` for unknown non-Beacon names is a side effect with no influence on
the returned value and is not modelled. -/
def get_unit_sized_color (unit_name : String) (user_id : Int) : ℚ × ColorRGBA :=
  match unit_name with
  | "VespeneEDyser" => (0.045, FREYA_LIGHT_GREEN)
  | "SpacePlatformGeyser" => (0.045, FREYA_LIGHT_GREEN)
  | "LabMineralField" => (0.024, FREYA_LIGHT_BLUE)
  | "LabMineralField750" => (0.036, FREYA_LIGHT_BLUE)
  | "MineralField" => (0.048, FREYA_LIGHT_BLUE)
  | "MineralField450" => (0.06, FREYA_LIGHT_BLUE)
  | "MineralField750" => (0.072, FREYA_LIGHT_BLUE)
  | "XelNagaTower" => (0.072, FREYA_WHITE)
  | "RichMineralField" => (0.045, FREYA_GOLD)
  | "RichMineralField750" => (0.045, FREYA_ORANGE)
  | "DestructibleDebris6x6" => (0.18, FREYA_GRAY)
  | "UnbuildablePlatesDestructible" => (0.06, FREYA_LIGHT_GRAY)
  | "Overlord" => (0.06, FREYA_YELLOW)
  | "SCV" | "Drone" | "Probe" | "Larva" => (0.03, FREYA_LIGHT_GRAY)
  | "Hatchery" | "CommandCenter" | "Nexus" => (0.12, FREYA_PINK)
  | "Broodling" => (0.006, FREYA_LIGHT_GRAY)
  | _ => (0.045, user_color user_id)

/-- The per-player stats block carried by a `PlayerStats` tracker event
(from the external `s2protocol` crate); only the fields that
`extract_game_snapshots` reads are modelled.  All are `i32`. -/
structure PlayerStatsStats where
  minerals_current : Int
  vespene_current : Int
  food_made : Int
  food_used : Int
  minerals_used_active_forces : Int
  vespene_used_active_forces : Int
deriving DecidableEq, Repr

/-- The `PlayerStats` tracker-event payload (`s2protocol`); `player_id`
is a `u8`. -/
structure PlayerStatsEvent where
  player_id : Nat
  stats : PlayerStatsStats
deriving DecidableEq, Repr

/-- The `UnitInit` tracker-event payload.  `register_unit_init` never reads
its fields (it consults `sc2_state` and `updated_units` instead), so the
payload carries no data in this model. -/
structure UnitInitEvent where
deriving DecidableEq, Repr

/-- The `UnitBorn` tracker-event payload; content unused by this crate. -/
structure UnitBornEvent where
deriving DecidableEq, Repr

/-- The `UnitDied` tracker-event payload; content unused by this crate. -/
structure UnitDiedEvent where
deriving DecidableEq, Repr

/-- The `UnitPosition` tracker-event payload; content unused by this crate. -/
structure UnitPositionEvent where
deriving DecidableEq, Repr

/-- The `PlayerSetup` tracker-event payload; content unused by this crate. -/
structure PlayerSetupEvent where
deriving DecidableEq, Repr

/-- The `UnitDone` tracker-event payload; content unused by this crate. -/
structure UnitDoneEvent where
deriving DecidableEq, Repr

/-- The `UnitTypeChange` tracker-event payload; content unused by this
crate. -/
structure UnitTypeChangeEvent where
deriving DecidableEq, Repr

/-- The `Upgrade` tracker-event payload; content unused by this crate. -/
structure UpgradeEvent where
deriving DecidableEq, Repr

/-- `ReplayTrackerEvent` from the external `s2protocol` crate: the kinds of
tracker events.  Only `PlayerStats` and `UnitInit` payloads are consumed by
this repository; the remaining kinds exist so the catch-all arms of
`extract_game_snapshots` and `process_event` are exercised over genuinely
distinct kinds. -/
inductive ReplayTrackerEvent where
  | PlayerStats (e : PlayerStatsEvent)
  | UnitInit (e : UnitInitEvent)
  | UnitBorn (e : UnitBornEvent)
  | UnitDied (e : UnitDiedEvent)
  | UnitPosition (e : UnitPositionEvent)
  | PlayerSetup (e : PlayerSetupEvent)
  | UnitDone (e : UnitDoneEvent)
  | UnitTypeChange (e : UnitTypeChangeEvent)
  | Upgrade (e : UpgradeEvent)
deriving DecidableEq, Repr

/-- `TrackerEvent` from `s2protocol`: a delta-encoded event.  `delta` is a
`u32` (frames since the previous event), modelled as `Nat`. -/
structure TrackerEvent where
  delta : Nat
  event : ReplayTrackerEvent
deriving DecidableEq, Repr

/-- `GameSnapshot` from `src/lib.rs`: `frame` is `u32`, `user_id` is `u8`,
the six resource fields are `i32`. -/
structure GameSnapshot where
  frame : Nat
  user_id : Nat
  minerals : Int
  vespene : Int
  supply_available : Int
  supply_used : Int
  active_force_minerals : Int
  active_force_vespene : Int
deriving DecidableEq, Repr

/-- The snapshot built from a `PlayerStats` payload at an absolute frame, as
in the `snapshots.push(GameSnapshot { .. })` of `src/lib.rs`:  every field is
a direct copy except `supply_available`, which is
`player_stats_event.stats.food_made.min(200)`. -/
def mkSnapshot (frame : Nat) (ps : PlayerStatsEvent) : GameSnapshot :=
  { frame := frame
    user_id := ps.player_id
    minerals := ps.stats.minerals_current
    vespene := ps.stats.vespene_current
    supply_available := min ps.stats.food_made 200
    supply_used := ps.stats.food_used
    active_force_minerals := ps.stats.minerals_used_active_forces
    active_force_vespene := ps.stats.vespene_used_active_forces }

/-- The loop of `extract_game_snapshots` from `src/lib.rs`, with the running
`u32` frame counter made an explicit argument.  `frame += event.delta` is
`u32` addition, i.e. addition modulo `2^32`. -/
def extractAux (frame : Nat) : List TrackerEvent → List GameSnapshot
  | [] => []
  | e :: rest =>
    let frame2 := (frame + e.delta) % 2 ^ 32
    match e.event with
    | .PlayerStats ps => mkSnapshot frame2 ps :: extractAux frame2 rest
    | _ => extractAux frame2 rest

/-- `extract_game_snapshots` from `src/lib.rs`: the frame counter starts
at 0. -/
def extract_game_snapshots (tracker_events : List TrackerEvent) : List GameSnapshot :=
  extractAux 0 tracker_events

/-- Whether a tracker event is of the player-stats kind (the kind matched by
the `PlayerStats(..)` arm of `extract_game_snapshots`). -/
def isPlayerStatsEvent (e : TrackerEvent) : Bool :=
  match e.event with
  | .PlayerStats _ => true
  | _ => false

/-- Specification-side helper: pair every event with the running sum (in
plain, unbounded `Nat` arithmetic, started at `acc`) of the `delta` values
of all events up to and including that event. -/
def withCumDelta (acc : Nat) : List TrackerEvent → List (Nat × TrackerEvent)
  | [] => []
  | e :: rest => (acc + e.delta, e) :: withCumDelta (acc + e.delta) rest

/-- Specification-side helper: the sum of the `delta` values of a list of
events, in unbounded arithmetic. -/
def deltaSum (events : List TrackerEvent) : Nat :=
  (events.map TrackerEvent.delta).sum

/-- The `unit` entry of the external `SC2ReplayState` unit table
(`s2protocol`): `register_unit_init` reads its `name`, optional `user_id`
(a `u8`), and its position `pos`, whose inner coordinate vector
(`unit.pos.0`, `f32` components) is appended wholesale to the output
buffer. -/
structure SC2Unit where
  name : String
  user_id : Option Nat
  pos : List ℚ
deriving DecidableEq, Repr

/-- The external `SC2ReplayState` (`s2protocol`): only the `units` map,
keyed by `u32` unit tag, is consumed by this repository.  The hash map is
modelled as an association list. -/
structure SC2ReplayState where
  units : List (Nat × SC2Unit)
deriving DecidableEq, Repr

/-- The four channels of a colour as floats, in `to_array` byte order:  in
`src/tracker_events/mod.rs` the unit's colour is appended to the `f32`
output buffer right after its position coordinates. -/
def colorChannels (c : ColorRGBA) : List ℚ :=
  c.to_array.map (fun b => (b : ℚ))

/-- `register_unit_init` from `src/tracker_events/mod.rs`: for every updated
unit tag that resolves in the state's unit table, look up its size and
colour (`user_id.unwrap_or(99)` widened to `i64`) and append the unit's
position coordinates followed by the colour channels. -/
def register_unit_init (sc2_state : SC2ReplayState) (_unit_init : UnitInitEvent)
    (updated_units : List Nat) : List ℚ :=
  updated_units.flatMap (fun unit_tag =>
    match sc2_state.units.lookup unit_tag with
    | some unit =>
      let sized_color := get_unit_sized_color unit.name ((unit.user_id.getD 99 : Nat) : Int)
      unit.pos ++ colorChannels sized_color.2
    | none => [])

/-- `process_event` from `src/tracker_events/mod.rs`: only the `UnitInit`
arm is live; every other kind falls to the `_ => vec![]` arm (the arms for
`UnitBorn`, `UnitDied`, `UnitPosition` and `PlayerStats` are commented out
in the source). -/
def process_event (sc2_state : SC2ReplayState) (evt : ReplayTrackerEvent)
    (updated_units : List Nat) : List ℚ :=
  match evt with
  | .UnitInit unit_init => register_unit_init sc2_state unit_init updated_units
  | _ => []

/-- Whether a `ReplayTrackerEvent` is of the `UnitInit` kind. -/
def isUnitInitEvent : ReplayTrackerEvent → Bool
  | .UnitInit _ => true
  | _ => false

/-- The index-buffer unrolling loop of `build_map_background` in
`src/map.rs`: for each tessellated index, emit the indexed vertex's `x` and
`y`, then `z = 0`, then the fill colour `r = 0`, `g = 0`, `b = 0`, `a = 1`.
The vertex lookup `geometry.vertices[idx as usize]` is modelled with a
default vertex for an out-of-range index (the lyon tessellator only
produces in-range indices). -/
def unroll_indices (vertices : List (ℚ × ℚ)) : List Nat → List ℚ
  | [] => []
  | idx :: rest =>
    (vertices.getD idx (0, 0)).1 :: (vertices.getD idx (0, 0)).2 ::
      0 :: 0 :: 0 :: 0 :: 1 :: unroll_indices vertices rest

/-- `build_map_background` from `src/map.rs`, parametrised by the output of
the external lyon tessellator (its vertex list and index list): the
function's own contribution is to unroll the index buffer into a flat
7-float interleaved position+colour array. -/
def build_map_background (tess_vertices : List (ℚ × ℚ)) (tess_indices : List Nat) : List ℚ :=
  unroll_indices tess_vertices tess_indices

/-- The animation timestamp of `App::render_gl` in `src/lib.rs` after `n`
animation-frame callbacks: `let mut timestamp = 0.0;` at startup, and each
callback performs `timestamp += 20.0` before pushing the value into the
`u_time` uniform.  The `f32` value is modelled as an exact rational. -/
def renderTimestamp : Nat → ℚ
  | 0 => 0
  | n + 1 => renderTimestamp n + 20

/-! ### Helper lemmas about the extraction loop -/

lemma extractAux_map_frame (a : Nat) (evts : List TrackerEvent) :
    (extractAux (a % 2 ^ 32) evts).map GameSnapshot.frame
      = ((withCumDelta a evts).filter (fun p => isPlayerStatsEvent p.2)).map
          (fun p => p.1 % 2 ^ 32) := by
  induction evts generalizing a with
  | nil => simp [extractAux, withCumDelta]
  | cons e rest ih =>
    obtain ⟨d, ev⟩ := e
    cases ev
    all_goals
      simpa [extractAux, withCumDelta, isPlayerStatsEvent, mkSnapshot,
        Nat.mod_add_mod] using ih (a + d)

lemma withCumDelta_map_fst (a : Nat) (evts : List TrackerEvent) :
    (withCumDelta a evts).map Prod.fst
      = (List.range evts.length).map (fun n => a + deltaSum (evts.take (n + 1))) := by
  induction evts generalizing a with
  | nil => simp [withCumDelta]
  | cons e rest ih =>
    simp only [withCumDelta, List.map_cons, ih (a + e.delta), List.length_cons,
      List.range_succ_eq_map, List.map_map]
    refine congrArg₂ _ (by simp [deltaSum]) ?_
    refine List.map_congr_left fun n _ => ?_
    simp [deltaSum, Function.comp, Nat.add_assoc]

lemma extractAux_length (f : Nat) (evts : List TrackerEvent) :
    (extractAux f evts).length = (evts.filter isPlayerStatsEvent).length := by
  induction evts generalizing f with
  | nil => simp [extractAux]
  | cons e rest ih =>
    obtain ⟨d, ev⟩ := e
    cases ev <;> simp [extractAux, isPlayerStatsEvent, ih]

lemma mem_extractAux (f : Nat) (evts : List TrackerEvent) (s : GameSnapshot)
    (hs : s ∈ extractAux f evts) : ∃ fr ps, s = mkSnapshot fr ps := by
  induction evts generalizing f with
  | nil => simp [extractAux] at hs
  | cons e rest ih =>
    obtain ⟨d, ev⟩ := e
    cases ev with
    | PlayerStats ps =>
      rcases (List.mem_cons).1 hs with h | h
      · exact ⟨(f + d) % 2 ^ 32, ps, h⟩
      · exact ih _ h
    | UnitInit e => exact ih _ hs
    | UnitBorn e => exact ih _ hs
    | UnitDied e => exact ih _ hs
    | UnitPosition e => exact ih _ hs
    | PlayerSetup e => exact ih _ hs
    | UnitDone e => exact ih _ hs
    | UnitTypeChange e => exact ih _ hs
    | Upgrade e => exact ih _ hs

/-! ### Claim theorems -/

/-- C1: for every input sequence of tracker events, the frame of each
snapshot emitted by `extract_game_snapshots` is the running `u32` sum (the
counter starts at 0, wraps modulo `2^32`, and is incremented by each event's
delta before the event is considered for emission) of the deltas of all
events up to and including the event that produced the snapshot: the list of
emitted frames equals the inclusive cumulative delta sums of exactly the
player-stats events, reduced modulo `2^32`; and the cumulative sums paired by
`withCumDelta 0` are precisely the sums of the deltas of each prefix of the
stream up to and including each event. -/
theorem extract_frames_are_cumulative_delta_sums (evts : List TrackerEvent) :
    ((extract_game_snapshots evts).map GameSnapshot.frame
      = ((withCumDelta 0 evts).filter (fun p => isPlayerStatsEvent p.2)).map
          (fun p => p.1 % 2 ^ 32))
    ∧ (withCumDelta 0 evts).map Prod.fst
        = (List.range evts.length).map (fun n => deltaSum (evts.take (n + 1))) := by
  constructor
  · have h := extractAux_map_frame 0 evts
    simpa [extract_game_snapshots] using h
  · simpa using withCumDelta_map_fst 0 evts

/-- C2: the number of snapshots returned by `extract_game_snapshots` equals
the number of player-stats events in the input (every other kind produces no
snapshot), and is therefore at most the input length. -/
theorem extract_length_eq_playerStats_count (evts : List TrackerEvent) :
    (extract_game_snapshots evts).length = (evts.filter isPlayerStatsEvent).length
    ∧ (extract_game_snapshots evts).length ≤ evts.length := by
  refine ⟨extractAux_length 0 evts, ?_⟩
  calc (extract_game_snapshots evts).length
      = (evts.filter isPlayerStatsEvent).length := extractAux_length 0 evts
    _ ≤ evts.length := List.length_filter_le _ _

/-- Sample input for the C3 witness: a single player-stats event whose
`food_made` value (300) exceeds the engine ceiling of 200. -/
def c3SampleStats : PlayerStatsStats :=
  { minerals_current := 50
    vespene_current := 10
    food_made := 300
    food_used := 20
    minerals_used_active_forces := 5
    vespene_used_active_forces := 6 }

/-- Sample event stream for the C3 witness. -/
def c3SampleEvents : List TrackerEvent :=
  [⟨7, .PlayerStats ⟨1, c3SampleStats⟩⟩]

/-- C3: in every snapshot emitted by `extract_game_snapshots` the supply-cap
field (`supply_available`) is at most 200 — for every input, however large
or negative `food_made` is, the value is clamped with a saturating minimum
rather than reported as an error — and every other payload field of the
snapshot built from a player-stats payload is a direct, unchanged copy. -/
theorem snapshot_supply_clamped :
    (∀ evts : List TrackerEvent, ∀ s ∈ extract_game_snapshots evts,
      s.supply_available ≤ 200)
    ∧ ∀ (frame : Nat) (ps : PlayerStatsEvent),
        (mkSnapshot frame ps).supply_available = min ps.stats.food_made 200
        ∧ (mkSnapshot frame ps).user_id = ps.player_id
        ∧ (mkSnapshot frame ps).minerals = ps.stats.minerals_current
        ∧ (mkSnapshot frame ps).vespene = ps.stats.vespene_current
        ∧ (mkSnapshot frame ps).supply_used = ps.stats.food_used
        ∧ (mkSnapshot frame ps).active_force_minerals
            = ps.stats.minerals_used_active_forces
        ∧ (mkSnapshot frame ps).active_force_vespene
            = ps.stats.vespene_used_active_forces := by
  constructor
  · intro evts s hs
    obtain ⟨fr, ps, rfl⟩ := mem_extractAux 0 evts s hs
    simp [mkSnapshot]
  · intro frame ps
    simp [mkSnapshot]

/-- C3 witness: on the concrete sample stream, the emitted snapshot's
supply cap is within the ceiling even though `food_made = 300`. -/
theorem snapshot_supply_clamped_witness :
    (mkSnapshot 7 ⟨1, c3SampleStats⟩).supply_available ≤ 200 :=
  snapshot_supply_clamped.1 c3SampleEvents (mkSnapshot 7 ⟨1, c3SampleStats⟩)
    (by simp [extract_game_snapshots, extractAux, c3SampleEvents])

/-- C4: `get_unit_sized_color` is total — for every unit-name string
(including the empty string and Beacon-prefixed names) and every `i64`
participant id it returns a (size, colour) pair — and the returned size is
strictly positive, being either one of the table's explicit sizes or the
default 0.045. -/
theorem get_unit_sized_color_total (unit_name : String) (user_id : Int) :
    0 < (get_unit_sized_color unit_name user_id).1
    ∧ (get_unit_sized_color unit_name user_id).1
        ∈ ([0.045, 0.024, 0.036, 0.048, 0.06, 0.072, 0.18, 0.03, 0.12, 0.006] :
            List ℚ) := by
  unfold get_unit_sized_color
  split <;> norm_num

/-- C5: `user_color` maps the ids 0, 1, 2 and 3 to four pairwise-distinct
palette colours, and every other `i64` id — negative, at least 4, or the
unknown-owner sentinel 99 — to the same neutral white; as a total Lean
function it never fails. -/
theorem user_color_palette :
    (user_color 0 = FREYA_LIGHT_GREEN ∧ user_color 1 = FREYA_LIGHT_BLUE
      ∧ user_color 2 = FREYA_LIGHT_GRAY ∧ user_color 3 = FREYA_ORANGE)
    ∧ List.Pairwise (· ≠ ·)
        [FREYA_LIGHT_GREEN, FREYA_LIGHT_BLUE, FREYA_LIGHT_GRAY, FREYA_ORANGE,
         FREYA_WHITE]
    ∧ ∀ user_id : Int, user_id ≠ 0 → user_id ≠ 1 → user_id ≠ 2 → user_id ≠ 3 →
        user_color user_id = FREYA_WHITE := by
  refine ⟨⟨rfl, rfl, rfl, rfl⟩, by decide, ?_⟩
  intro user_id h0 h1 h2 h3
  unfold user_color
  split
  · exact absurd rfl h0
  · exact absurd rfl h1
  · exact absurd rfl h2
  · exact absurd rfl h3
  · rfl

/-- C5 witness: the sentinel id 99 and a negative id both fall to the
neutral white. -/
theorem user_color_palette_witness :
    user_color 99 = FREYA_WHITE ∧ user_color (-5) = FREYA_WHITE :=
  ⟨user_color_palette.2.2 99 (by decide) (by decide) (by decide) (by decide),
   user_color_palette.2.2 (-5) (by decide) (by decide) (by decide) (by decide)⟩

lemma withCumDelta_fst_le (a : Nat) (evts : List TrackerEvent) :
    ∀ p ∈ withCumDelta a evts, a ≤ p.1 ∧ p.1 ≤ a + deltaSum evts := by
  induction evts generalizing a with
  | nil => simp [withCumDelta]
  | cons e rest ih =>
    intro p hp
    rcases (List.mem_cons).1 hp with h | h
    · subst h
      refine ⟨Nat.le_add_right _ _, ?_⟩
      simp [deltaSum, ← Nat.add_assoc]
    · have := ih (a + e.delta) p h
      constructor
      · exact le_trans (Nat.le_add_right _ _) this.1
      · have h2 := this.2
        simp only [deltaSum, List.map_cons, List.sum_cons] at h2 ⊢
        omega

lemma withCumDelta_pairwise (a : Nat) (evts : List TrackerEvent) :
    List.Pairwise (fun p q : Nat × TrackerEvent => p.1 ≤ q.1)
      (withCumDelta a evts) := by
  induction evts generalizing a with
  | nil => simp [withCumDelta]
  | cons e rest ih =>
    refine List.Pairwise.cons ?_ (ih (a + e.delta))
    intro q hq
    exact (withCumDelta_fst_le (a + e.delta) rest q hq).1

/-- Two player-stats events whose deltas (`2^32 - 1` and `2`, both valid
`u32` values) make the running `u32` frame counter wrap past `2^32`. -/
def c6OverflowEvents : List TrackerEvent :=
  [⟨4294967295, .PlayerStats ⟨1, c3SampleStats⟩⟩,
   ⟨2, .PlayerStats ⟨2, c3SampleStats⟩⟩]

/-- C6 counterexample: on `c6OverflowEvents` the emitted frames are
`[4294967295, 1]` — the `u32` frame counter wraps — so the snapshot frames
are not monotonically non-decreasing for every input sequence. -/
theorem extract_frames_not_always_monotone :
    ¬ List.Chain' (· ≤ ·)
        ((extract_game_snapshots c6OverflowEvents).map GameSnapshot.frame) := by
  have h : (extract_game_snapshots c6OverflowEvents).map GameSnapshot.frame
      = [4294967295, 1] := by decide
  rw [h]
  intro hc
  rcases List.chain'_cons.1 hc with ⟨hle, -⟩
  omega

/-- C6 (amended): provided the total delta sum stays below `2^32` (so the
`u32` frame counter never wraps), the frame values of the snapshots returned
by `extract_game_snapshots`, in output order, are monotonically
non-decreasing. -/
theorem extract_frames_monotone_without_wrap (evts : List TrackerEvent)
    (h : deltaSum evts < 2 ^ 32) :
    List.Chain' (· ≤ ·)
      ((extract_game_snapshots evts).map GameSnapshot.frame) := by
  have hframes : (extract_game_snapshots evts).map GameSnapshot.frame
      = ((withCumDelta 0 evts).filter (fun p => isPlayerStatsEvent p.2)).map
          (fun p => p.1 % 2 ^ 32) := by
    simpa [extract_game_snapshots] using extractAux_map_frame 0 evts
  have hmap : ((withCumDelta 0 evts).filter (fun p => isPlayerStatsEvent p.2)).map
      (fun p => p.1 % 2 ^ 32)
      = ((withCumDelta 0 evts).filter (fun p => isPlayerStatsEvent p.2)).map
          (fun p => p.1) := by
    refine List.map_congr_left fun p hp => ?_
    have hp2 : p ∈ withCumDelta 0 evts := (List.mem_filter.1 hp).1
    have hb := (withCumDelta_fst_le 0 evts p hp2).2
    exact Nat.mod_eq_of_lt (lt_of_le_of_lt (by simpa using hb) h)
  rw [hframes, hmap]
  have hpw : List.Pairwise (fun p q : Nat × TrackerEvent => p.1 ≤ q.1)
      ((withCumDelta 0 evts).filter (fun p => isPlayerStatsEvent p.2)) :=
    (withCumDelta_pairwise 0 evts).filter _
  exact (List.pairwise_map.2 hpw).chain'

/-- Sample event stream for the C6 witness: two player-stats events with
small deltas. -/
def c6WitnessEvents : List TrackerEvent :=
  [⟨5, .PlayerStats ⟨1, c3SampleStats⟩⟩, ⟨3, .PlayerStats ⟨2, c3SampleStats⟩⟩]

/-- C6 witness: on a concrete stream whose deltas do not overflow, the
emitted frames are non-decreasing. -/
theorem extract_frames_monotone_without_wrap_witness :
    List.Chain' (· ≤ ·)
      ((extract_game_snapshots c6WitnessEvents).map GameSnapshot.frame) :=
  extract_frames_monotone_without_wrap c6WitnessEvents (by decide)

lemma unroll_indices_length (verts : List (ℚ × ℚ)) (indices : List Nat) :
    (unroll_indices verts indices).length = 7 * indices.length := by
  induction indices with
  | nil => simp [unroll_indices]
  | cons i rest ih =>
    simp only [unroll_indices, List.length_cons, ih]
    ring

lemma drop_seven_shift (a b c d e f g : ℚ) (t : List ℚ) (m : Nat) :
    List.drop (7 * m + 7) (a :: b :: c :: d :: e :: f :: g :: t)
      = List.drop (7 * m) t := by
  have e7 : 7 * m + 7 = 7 * m + 1 + 1 + 1 + 1 + 1 + 1 + 1 := by ring
  rw [e7]
  simp [List.drop_succ_cons]

/-- C7: the vertex buffer produced by `build_map_background` is the
tessellation's index buffer unrolled into a flat interleaved array: its
length is exactly 7 times the number of tessellated indices, and the 7
floats of the `n`-th emitted vertex are the indexed vertex's `x`, `y`, then
`z = 0`, then the four fill-colour channels `0, 0, 0, 1`, identical across
all emitted vertices.  The statement quantifies over every output of the
external lyon tessellator. -/
theorem build_map_background_unrolls (verts : List (ℚ × ℚ)) (indices : List Nat) :
    (build_map_background verts indices).length = 7 * indices.length
    ∧ ∀ n, n < indices.length →
        ((build_map_background verts indices).drop (7 * n)).take 7
          = [(verts.getD (indices.getD n 0) (0, 0)).1,
             (verts.getD (indices.getD n 0) (0, 0)).2, 0, 0, 0, 0, 1] := by
  refine ⟨unroll_indices_length verts indices, ?_⟩
  intro n hn
  induction indices generalizing n with
  | nil => simp at hn
  | cons i rest ih =>
    cases n with
    | zero => simp [build_map_background, unroll_indices]
    | succ m =>
      have hm : m < rest.length := by simpa using hn
      have e7 : 7 * (m + 1) = 7 * m + 7 := by ring
      have hd : (build_map_background verts (i :: rest)).drop (7 * (m + 1))
          = (build_map_background verts rest).drop (7 * m) := by
        rw [e7]
        exact drop_seven_shift _ _ _ _ _ _ _ _ m
      rw [hd]
      simpa using ih m hm

/-- C7 witness: a concrete two-triangle tessellation output; the second
chunk of the unrolled buffer is the vertex at index 2 with the constant
fill colour. -/
theorem build_map_background_unrolls_witness :
    (build_map_background [(1, 2), (3, 4), (5, 6)] [0, 2, 1]).length = 7 * 3
    ∧ ((build_map_background [(1, 2), (3, 4), (5, 6)] [0, 2, 1]).drop (7 * 1)).take 7
        = [5, 6, 0, 0, 0, 0, 1] := by
  refine ⟨(build_map_background_unrolls [(1, 2), (3, 4), (5, 6)] [0, 2, 1]).1, ?_⟩
  have h := (build_map_background_unrolls [(1, 2), (3, 4), (5, 6)] [0, 2, 1]).2 1
    (by norm_num)
  simpa using h

/-- C8: the render loop's elapsed-time state starts at 0 at render-core
startup (so the initial draw before any callback pushes 0 into the time
uniform) and is incremented by exactly 20.0 once per animation-frame
callback before being pushed, so after `n` callbacks the value carried by
the uniform is `20.0 * n`. -/
theorem renderTimestamp_linear :
    renderTimestamp 0 = 0 ∧ ∀ n : Nat, renderTimestamp n = 20 * n := by
  refine ⟨rfl, ?_⟩
  intro n
  induction n with
  | zero => simp [renderTimestamp]
  | succ m ih =>
    rw [renderTimestamp, ih]
    push_cast
    ring

/-- C9: `ColorRGBA.to_array` expands the packed 32-bit colour into four
component bytes by successive 8-bit right shifts, most significant byte
first — for every packed `u32` value `v` it returns
`[v >>> 24, (v >>> 16) % 256, (v >>> 8) % 256, v % 256]` — and for every one
of the seventeen palette constants the resulting low (fourth) byte is
zero. -/
theorem to_array_byte_decomposition :
    (∀ v : Nat, v < 2 ^ 32 →
        ColorRGBA.to_array ⟨v⟩
          = [v >>> 24, (v >>> 16) % 256, (v >>> 8) % 256, v % 256])
    ∧ ∀ c ∈ freyaPalette, c.to_array.getD 3 1 = 0 := by
  constructor
  · intro v hv
    have h24 : v >>> 24 < 256 := by
      rw [Nat.shiftRight_eq_div_pow]
      apply Nat.div_lt_of_lt_mul
      calc v < 2 ^ 32 := hv
        _ = 2 ^ 24 * 256 := by norm_num
    simp [ColorRGBA.to_array, Nat.mod_eq_of_lt h24]
  · decide

/-- C9 witness: the decomposition at the concrete packed value of
`FREYA_ORANGE`. -/
theorem to_array_byte_decomposition_witness :
    ColorRGBA.to_array ⟨0xeb790700⟩ = [0xeb, 0x79, 0x07, 0x00] :=
  (to_array_byte_decomposition.1 0xeb790700 (by norm_num)).trans (by decide)

/-- C10: `process_event` returns the empty vector for every tracker event
whose kind is not `UnitInit`: `UnitBorn`, `UnitDied`, `UnitPosition`,
`PlayerStats` and all other kinds contribute no render data through this
path. -/
theorem process_event_only_unitInit (sc2_state : SC2ReplayState)
    (evt : ReplayTrackerEvent) (updated_units : List Nat)
    (h : isUnitInitEvent evt = false) :
    process_event sc2_state evt updated_units = [] := by
  cases evt <;> simp_all [process_event, isUnitInitEvent]

/-- C10 witness: a concrete non-`UnitInit` event produces no render
data, even with a non-empty updated-units list. -/
theorem process_event_only_unitInit_witness :
    process_event ⟨[]⟩ (.UnitDied ⟨⟩) [3] = [] :=
  process_event_only_unitInit ⟨[]⟩ (.UnitDied ⟨⟩) [3] (by decide)

end Cooper
